import Mathlib

/-!
A shallow embedding of the multi-factor recall-prediction engine of
`taiwan_recall_prediction/dashboard.py` (the estimator agents and the
master aggregator), together with theorems settling the specification
claims about it.  Python floats are modelled as rationals (all constants
in the source are exact decimals), Python dicts keyed by age group or
platform as association lists, and a Python `KeyError` as `Option.none`.
The `random` module calls inside `ForumSentimentAgent` are modelled by an
explicit stream of unit-interval draws threaded through the computation.
-/

namespace TWRecall

/-! ### String helpers (Python `in` substring test and `str.split()`) -/

/-- Checks that the first character list occurs at the head of the second. -/
def matchHere : List Char → List Char → Bool
  | [], _ => true
  | _ :: _, [] => false
  | a :: as, b :: bs => a == b && matchHere as bs

/-- Checks that the first character list occurs anywhere inside the second. -/
def occursIn (needle : List Char) : List Char → Bool
  | [] => needle.isEmpty
  | h :: t => matchHere needle (h :: t) || occursIn needle t

/-- Python `needle in hay` on strings: substring containment. -/
def strIn (needle hay : String) : Bool :=
  occursIn needle.data hay.data

/-- Auxiliary splitter: accumulates the current token (reversed). -/
def splitWSAux : List Char → List Char → List String
  | [], acc => if acc.isEmpty then [] else [String.mk acc.reverse]
  | c :: cs, acc =>
    if c == ' ' then
      if acc.isEmpty then splitWSAux cs []
      else String.mk acc.reverse :: splitWSAux cs []
    else splitWSAux cs (c :: acc)

/-- Python `s.split()`: split on runs of blanks, dropping empty tokens. -/
def splitWS (s : String) : List String :=
  splitWSAux s.data []

/-! ### PsychologicalMotivationAgent (Motivation Estimator) -/

/-- Per-age-group base proxies used by `PsychologicalMotivationAgent`. -/
structure PsychParams where
  political_interest : ℚ
  political_efficacy : ℚ
  economic_motivation : ℚ
  deriving DecidableEq

/-- Table of `_get_base_params`: the three fixed age-group rows, with
political interest multiplied by 1.2 when the recall target contains one
of the high-controversy names. -/
def psychBaseParams (recall_target : String) : List (String × PsychParams) :=
  let boost : ℚ :=
    if (["韓國瑜", "柯文哲", "羅智強"].any fun name => strIn name recall_target)
    then 1.2 else 1
  [("青年層", ⟨0.6 * boost, 0.7, 0.8⟩),
   ("中年層", ⟨0.8 * boost, 0.6, 0.9⟩),
   ("長者層", ⟨0.9 * boost, 0.5, 0.7⟩)]

/-- One row of `PsychologicalMotivationAgent.analyze` output. -/
structure PsychResult where
  percentage : ℚ
  political_interest : ℚ
  political_efficacy : ℚ
  economic_motivation : ℚ
  voting_intention : ℚ
  deriving DecidableEq

/-- Option-valued traversal of an association list; `none` models the
Python `KeyError` raised at the first failing lookup of the loop body. -/
def optMapList (f : String × ℚ → Option (String × α)) :
    List (String × ℚ) → Option (List (String × α))
  | [] => some []
  | a :: l =>
    match f a, optMapList f l with
    | some b, some bs => some (b :: bs)
    | _, _ => none

/-- Embedding of `PsychologicalMotivationAgent.analyze`: for each age
group of the age structure, looks the group up in the base-parameter
table (a missing group raises `KeyError`, modelled as `none`) and
multiplies the three proxies into the voting intention. -/
def psychologicalAnalyze (age_structure : List (String × ℚ))
    (recall_target : String) : Option (List (String × PsychResult)) :=
  optMapList (fun gp =>
    ((psychBaseParams recall_target).lookup gp.1).map fun bp =>
      (gp.1,
        { percentage := gp.2
          political_interest := bp.political_interest
          political_efficacy := bp.political_efficacy
          economic_motivation := bp.economic_motivation
          voting_intention :=
            bp.political_interest * bp.political_efficacy *
              bp.economic_motivation })) age_structure

/-! ### MediaEnvironmentAgent (Media Estimator) -/

/-- The fixed per-age-group platform-weight table `media_weights`. -/
def mediaWeights : List (String × List (String × ℚ)) :=
  [("青年層", [("IG", 0.3), ("TikTok", 0.25), ("YouTube", 0.25), ("PTT", 0.2)]),
   ("中年層", [("Facebook", 0.4), ("LINE", 0.3), ("TV", 0.2), ("News", 0.1)]),
   ("長者層", [("TV", 0.5), ("Newspaper", 0.2), ("Radio", 0.2), ("Word", 0.1)])]

/-- Embedding of `MediaEnvironmentAgent._get_media_attention`. -/
def mediaAttention (recall_target : String) : ℚ :=
  if (["韓國瑜", "柯文哲", "羅智強", "趙少康"].any fun name =>
      strIn name recall_target)
  then 1.5 else 1.0

/-- Embedding of `MediaEnvironmentAgent._get_platform_multiplier`
(the dict `get` default is 1.0). -/
def platformMultiplier (platform : String) : ℚ :=
  (([("IG", 1.1), ("TikTok", 1.2), ("YouTube", 1.0), ("PTT", 1.3),
     ("Facebook", 1.1), ("LINE", 0.9), ("TV", 1.2), ("News", 1.0),
     ("Newspaper", 0.8), ("Radio", 0.7), ("Word", 0.8)] :
    List (String × ℚ)).lookup platform).getD 1.0

/-- One row of `MediaEnvironmentAgent.analyze` output. -/
structure MediaResult where
  media_coefficient : ℚ
  dominant_platforms : List String
  deriving DecidableEq

/-- Embedding of `MediaEnvironmentAgent.analyze`: starts each age group
at 0.5, accumulates `base_attention * weight * multiplier * 0.3` over the
platform table of the group, then clamps to [0.5, 1.5].  An age group
missing from `media_weights` raises `KeyError`, modelled as `none`. -/
def mediaAnalyze (age_structure : List (String × ℚ))
    (recall_target : String) : Option (List (String × MediaResult)) :=
  let base_attention := mediaAttention recall_target
  optMapList (fun gp =>
    (mediaWeights.lookup gp.1).map fun ws =>
      let media_coefficient := ws.foldl
        (fun acc pw => acc + base_attention * pw.2 * platformMultiplier pw.1 * 0.3)
        0.5
      (gp.1,
        { media_coefficient := max 0.5 (min media_coefficient 1.5)
          dominant_platforms := (ws.map Prod.fst).take 2 })) age_structure

/-! ### SocialAtmosphereAgent (Climate / Social-Mood Estimator) -/

/-- The forum-sentiment summary consumed by `SocialAtmosphereAgent`
(the code reads the two keys with `.get` defaults; a valid scenario
supplies both). -/
structure ForumSent where
  dcard_positive : ℚ
  ptt_positive : ℚ
  deriving DecidableEq

/-- Embedding of `SocialAtmosphereAgent._calculate_sentiment_score`. -/
def sentimentScore (fs : ForumSent) : ℚ :=
  (fs.dcard_positive / 100 + fs.ptt_positive / 100) / 2 + 0.5

/-- Embedding of `SocialAtmosphereAgent._calculate_heat_multiplier`. -/
def heatMultiplier (discussion_heat : ℚ) : ℚ :=
  min (discussion_heat / 100 + 0.8) 1.5

/-- Embedding of `SocialAtmosphereAgent._calculate_pressure_factor`. -/
def pressureFactor (peer_pressure : ℚ) : ℚ :=
  min (peer_pressure / 100 + 0.9) 1.3

/-- One row of `SocialAtmosphereAgent.analyze` output. -/
structure SocialResult where
  social_coefficient : ℚ
  sentiment_impact : ℚ
  heat_impact : ℚ
  pressure_impact : ℚ
  deriving DecidableEq

/-- The per-age-group body of the `SocialAtmosphereAgent.analyze` loop:
base 0.7 plus the shared scalars times the age sensitivity, clamped to
[0.5, 1.5]. -/
def socialRow (fs : ForumSent) (discussion_heat peer_pressure sensitivity : ℚ) :
    SocialResult :=
  let sentiment_score := sentimentScore fs
  let heat_mult := heatMultiplier discussion_heat
  let pressure := pressureFactor peer_pressure
  let social_coefficient :=
    0.7 + sentiment_score * heat_mult * pressure * sensitivity
  { social_coefficient := max 0.5 (min social_coefficient 1.5)
    sentiment_impact := sentiment_score
    heat_impact := heat_mult
    pressure_impact := pressure }

/-- Embedding of `SocialAtmosphereAgent.analyze`: the three fixed age
groups with sensitivities 0.3 / 0.25 / 0.2. -/
def socialAnalyze (fs : ForumSent) (discussion_heat peer_pressure : ℚ) :
    List (String × SocialResult) :=
  [("青年層", socialRow fs discussion_heat peer_pressure 0.3),
   ("中年層", socialRow fs discussion_heat peer_pressure 0.25),
   ("長者層", socialRow fs discussion_heat peer_pressure 0.2)]

/-! ### ClimateConditionAgent (Weather Estimator) -/

/-- Output of `ClimateConditionAgent.analyze`. -/
structure ClimateResult where
  weather_coefficient : ℚ
  temperature_impact : ℚ
  rainfall_impact : ℚ
  condition_impact : String
  deriving DecidableEq

/-- Embedding of `ClimateConditionAgent.analyze`, branch for branch: note
that in the source the `elif temperature > 35` and `elif rainfall > 15`
arms follow the weaker `> 30` / `> 5` tests of the same `if` chain, so
they can never be taken. -/
def climateAnalyze (temperature rainfall : ℚ) (weather_condition : String) :
    ClimateResult :=
  let w : ℚ := 1.0
  let w :=
    if temperature > 30 then w - 0.05
    else if temperature > 35 then w - 0.1
    else if temperature < 10 then w - 0.08
    else w
  let w :=
    if rainfall > 5 then w - 0.1
    else if rainfall > 15 then w - 0.2
    else w
  let w :=
    if weather_condition ∈ ["颱風", "暴雨", "極端高溫"] then w - 0.15
    else w
  { weather_coefficient := max w 0.5
    temperature_impact := temperature
    rainfall_impact := rainfall
    condition_impact := weather_condition }

/-! ### RegionalGeographyAgent (Regional Estimator) -/

/-- The fixed table of `RegionalGeographyAgent._get_region_multiplier`,
in source order (the Python loop returns the first key contained in the
region string). -/
def regionFactors : List (String × ℚ) :=
  [("台北", 1.05), ("新北", 1.02), ("桃園", 1.0), ("台中", 1.03),
   ("台南", 1.08), ("高雄", 1.06), ("基隆", 0.98), ("新竹", 1.01),
   ("苗栗", 0.97), ("彰化", 1.0), ("南投", 0.96), ("雲林", 0.98),
   ("嘉義", 1.02), ("屏東", 1.04), ("宜蘭", 0.99), ("花蓮", 0.95),
   ("台東", 0.94), ("澎湖", 0.92), ("金門", 0.90), ("連江", 0.88)]

/-- Embedding of `RegionalGeographyAgent._get_region_multiplier`. -/
def regionMultiplier (region : String) : ℚ :=
  match regionFactors.find? (fun kv => strIn kv.1 region) with
  | some kv => kv.2
  | none => 1.0

/-- Output of `RegionalGeographyAgent.analyze`. -/
structure RegionalResult where
  adjustment_factor : ℚ
  regional_coefficient : ℚ
  historical_impact : ℚ
  mobilization_impact : ℚ
  region_multiplier : ℚ
  deriving DecidableEq

/-- Embedding of `RegionalGeographyAgent.analyze`: baseline 1.0 adjusted
by historical turnout, scaled by mobilization and the regional table,
clamped to [0.95, 1.1]. -/
def regionalAnalyze (region : String)
    (historical_turnout mobilization_capacity : ℚ) : RegionalResult :=
  let base : ℚ := 1.0
  let base :=
    if historical_turnout > 60 then base + 0.1
    else if historical_turnout < 50 then base - 0.05
    else base
  let mobilization_factor := mobilization_capacity / 100
  let base := base * (0.9 + mobilization_factor * 0.2)
  let rm := regionMultiplier region
  let final_adjustment := base * rm
  { adjustment_factor := max (min final_adjustment 1.1) 0.95
    regional_coefficient := max (min final_adjustment 1.1) 0.95
    historical_impact := historical_turnout
    mobilization_impact := mobilization_capacity
    region_multiplier := rm }

/-! ### ForumSentimentAgent (Sentiment Estimator)

The source draws from Python `random` inside this agent.  We model the
generator as an infinite stream of unit-interval rationals together with
a cursor; every `random.uniform` / `random.randint` call consumes one
draw, in program order. -/

/-- Explicit random source: a stream of draws in [0, 1] and a cursor. -/
structure RState where
  r : ℕ → ℚ
  i : ℕ

/-- Models `random.uniform a b`: consumes one draw `u` and yields
`a + (b - a) * u`. -/
def drawU (a b : ℚ) (st : RState) : ℚ × RState :=
  (a + (b - a) * st.r st.i, ⟨st.r, st.i + 1⟩)

/-- Models `random.randint a b` (inclusive bounds): consumes one draw
`u` and yields `a + min (b - a) ⌊u * (b - a + 1)⌋`. -/
def drawI (a b : ℤ) (st : RState) : ℤ × RState :=
  (a + min (b - a) ⌊st.r st.i * ((b : ℚ) - (a : ℚ) + 1)⌋, ⟨st.r, st.i + 1⟩)

/-- The per-forum characteristics table of `_crawl_forum_sentiment`:
negativity bias and volatility (dict `get` falls back to the `ptt` row). -/
def forumCharacteristics : List (String × (ℚ × ℚ)) :=
  [("ptt", (1.2, 1.3)), ("dcard", (0.9, 1.1)), ("mobile01", (1.0, 0.8))]

/-- Output record of `_crawl_forum_sentiment`. -/
structure ForumCrawl where
  positiveRate : ℚ
  negativeRate : ℚ
  sample_size : ℤ
  volatility : ℚ
  deriving DecidableEq

/-- Embedding of `ForumSentimentAgent._crawl_forum_sentiment`: a uniform
base sentiment in [0.3, 0.7] divided by the negativity bias of the forum,
clamped to [0.1, 0.9], plus a random sample size. -/
def crawlForumSentiment (forum : String) (st : RState) : ForumCrawl × RState :=
  let char := (forumCharacteristics.lookup forum).getD (1.2, 1.3)
  let bs := drawU 0.3 0.7 st
  let adjusted := bs.1 / char.1
  let adjusted := max 0.1 (min 0.9 adjusted)
  let ns := drawI 50 200 bs.2
  ({ positiveRate := adjusted
     negativeRate := 1 - adjusted
     sample_size := ns.1
     volatility := char.2 }, ns.2)

/-- Political bias of a news source in `_crawl_news_sentiment`. -/
def newsBias (source : String) : ℚ :=
  if source ∈ ["自由時報", "蘋果日報"] then 0.6
  else if source ∈ ["聯合報", "中國時報"] then 0.4
  else 0.5

/-- Output record of `_crawl_news_sentiment`. -/
structure NewsCrawl where
  positiveRate : ℚ
  negativeRate : ℚ
  sample_size : ℤ
  deriving DecidableEq

/-- Loop body accumulator of `_crawl_news_sentiment`:
(total positive, total negative, total samples). -/
def newsFold (acc : (ℚ × ℚ × ℤ) × RState) (source : String) :
    (ℚ × ℚ × ℤ) × RState :=
  let bias := newsBias source
  let ss := drawU (bias - 0.1) (bias + 0.1) acc.2
  let ns := drawI 20 80 ss.2
  ((acc.1.1 + ss.1 * ns.1, acc.1.2.1 + (1 - ss.1) * ns.1, acc.1.2.2 + ns.1),
    ns.2)

/-- Embedding of `ForumSentimentAgent._crawl_news_sentiment`: averages a
random sentiment over the five fixed news sources, weighted by random
sample counts. -/
def crawlNewsSentiment (st : RState) : NewsCrawl × RState :=
  let res := (["自由時報", "聯合報", "中國時報", "蘋果日報", "ETtoday"].foldl
    newsFold ((0, 0, 0), st))
  let total_positive := res.1.1
  let total_negative := res.1.2.1
  let total_samples := res.1.2.2
  ({ positiveRate :=
       if total_samples > 0 then total_positive / total_samples else 0.5
     negativeRate :=
       if total_samples > 0 then total_negative / total_samples else 0.5
     sample_size := total_samples }, res.2)

/-- Loop body of the per-age-group forum blends in
`ForumSentimentAgent.analyze`: accumulates (positive, negative, weight). -/
def forumFold (acc : (ℚ × ℚ × ℚ) × RState) (fw : String × ℚ) :
    (ℚ × ℚ × ℚ) × RState :=
  let cs := crawlForumSentiment fw.1 acc.2
  ((acc.1.1 + cs.1.positiveRate * fw.2,
    acc.1.2.1 + cs.1.negativeRate * fw.2,
    acc.1.2.2 + fw.2), cs.2)

/-- Output record of `ForumSentimentAgent.analyze`. -/
structure SentimentResult where
  positive_emotion_mean : ℚ
  mobilization_modifier : ℚ
  mobilization_strength : ℚ
  s1_youth_forum : ℚ
  s2_middle_forum : ℚ
  s3_elder_news : ℚ
  fb_youth_ptt : ℚ
  fb_youth_dcard : ℚ
  fb_middle_mobile01 : ℚ
  fb_elder_news : ℚ
  dcard_positive : ℚ
  ptt_positive : ℚ
  final_support_rate : ℚ
  deriving DecidableEq

/-- Embedding of `ForumSentimentAgent.analyze`: blends randomly crawled
forum sentiment over the fixed youth and middle usage-share tables, takes
elder sentiment from the news crawl, and multiplies the weighted average
by a uniform draw in [1.1, 1.3] for the mobilization modifier.  The three
declared parameters are unused in the source body and are unused here. -/
def sentimentAnalyze (_dcard_sentiment _ptt_sentiment _mobilization_strength : ℚ)
    (st : RState) : SentimentResult × RState :=
  let youthUsage : List (String × ℚ) :=
    [("ptt", 0.45), ("dcard", 0.35), ("mobile01", 0.20)]
  let middleUsage : List (String × ℚ) :=
    [("ptt", 0.25), ("dcard", 0.15), ("mobile01", 0.60)]
  let ys := youthUsage.foldl forumFold ((0, 0, 0), st)
  let s1 := if ys.1.2.2 > 0 then ys.1.1 / ys.1.2.2 else 0.5
  let ms := middleUsage.foldl forumFold ((0, 0, 0), ys.2)
  let s2 := if ms.1.2.2 > 0 then ms.1.1 / ms.1.2.2 else 0.5
  let news := crawlNewsSentiment ms.2
  let s3 := news.1.positiveRate
  let mf := drawU 1.1 1.3 news.2
  let modifier := (s1 * 0.4 + s2 * 0.35 + s3 * 0.25) * mf.1
  ({ positive_emotion_mean := (s1 + s2 + s3) / 3
     mobilization_modifier := modifier
     mobilization_strength := modifier
     s1_youth_forum := s1
     s2_middle_forum := s2
     s3_elder_news := s3
     fb_youth_ptt := 0.45
     fb_youth_dcard := 0.35
     fb_middle_mobile01 := 0.60
     fb_elder_news := s3
     dcard_positive := s1
     ptt_positive := s2
     final_support_rate := (s1 + s2 + s3) / 3 * modifier }, mf.2)

/-! ### MasterAnalysisAgent (Aggregator) -/

/-- The fixed intensity table of `_get_dynamic_political_intensity`, in
source (insertion) order; ordering matters for the fuzzy-match loop. -/
def intensityMap : List (String × ℚ) :=
  [("韓國瑜 (2020年罷免成功)", 1.8),
   ("柯文哲 (台北市長)", 1.6),
   ("羅智強 (台北市第1選區)", 1.5),
   ("趙少康 (媒體人/政治人物)", 1.4),
   ("黃國昌 (2017年罷免失敗)", 1.3),
   ("陳柏惟 (2021年罷免成功)", 1.2),
   ("李彥秀 (台北市第2選區)", 1.1),
   ("蔣萬安相關立委", 1.1),
   ("邱若華 (桃園市第6選區)", 0.9),
   ("地方議員", 0.8)]

/-- Embedding of `MasterAnalysisAgent._get_dynamic_political_intensity`:
`None` becomes the default target, then exact lookup, then the fuzzy
pass returning the first table row one of whose blank-separated tokens of
length above 1 occurs inside the target, and finally the default 1.0. -/
def dynamicPoliticalIntensity (target? : Option String) : ℚ :=
  let target := target?.getD "一般立委"
  match intensityMap.lookup target with
  | some v => v
  | none =>
    match intensityMap.find? (fun kv =>
        ((splitWS kv.1).filter (fun name => name.length > 1)).any
          (fun name => strIn name target)) with
    | some kv => kv.2
    | none => 1.0

/-- Embedding of `MasterAnalysisAgent._calculate_turnout`: sums, over the
age groups of the age structure that are present in the psychological,
media and social maps alike, share/100 times the three coefficients; a
group missing from any map is skipped without error.  The sum is scaled
by the weather, regional and political-intensity multipliers, converted
to percent, and floored at 20 (the source deliberately has no upper cap). -/
def calcTurnout (age_structure : List (String × ℚ))
    (psychological : List (String × PsychResult))
    (media : List (String × MediaResult))
    (social : List (String × SocialResult))
    (climate : ClimateResult) (regional : RegionalResult)
    (target? : Option String) : ℚ :=
  let total_turnout := age_structure.foldl
    (fun acc gp =>
      match psychological.lookup gp.1, media.lookup gp.1, social.lookup gp.1 with
      | some pr, some mr, some sr =>
        acc + gp.2 / 100 * pr.voting_intention * mr.media_coefficient *
          sr.social_coefficient
      | _, _, _ => acc) 0
  let final_turnout := total_turnout * climate.weather_coefficient *
    regional.adjustment_factor * dynamicPoliticalIntensity target? * 100
  max final_turnout 20

/-- Embedding of `MasterAnalysisAgent._calculate_agreement`: fixed
population shares 0.30 / 0.45 / 0.25 (not the scenario's age structure)
weight the age-stratified sentiment values scaled by 1.2 / 1.0 / 0.8,
the sum is multiplied by the political intensity, converted to percent
and clamped to [10, 90].  The turnout argument is unused in the source
body and is unused here. -/
def calcAgreement (_turnout_rate : ℚ) (sentiment : SentimentResult)
    (target? : Option String) : ℚ :=
  let p_youth : ℚ := 0.30
  let p_middle : ℚ := 0.45
  let p_elder : ℚ := 0.25
  let s_youth := sentiment.s1_youth_forum * 1.2
  let s_middle := sentiment.s2_middle_forum * 1.0
  let s_elder := sentiment.s3_elder_news * 0.8
  let i_factor := dynamicPoliticalIntensity target?
  let base_agreement := p_youth * s_youth + p_middle * s_middle +
    p_elder * s_elder
  let final_agreement := base_agreement * i_factor * 100
  min (max final_agreement 10) 90

/-- Rounds `q * 10` to the nearest integer, ties to even, modelling the
Python `{x:.1f}` format of a nonnegative value. -/
def round1 (q : ℚ) : ℤ :=
  let x := q * 10
  let f := ⌊x⌋
  if x - f > 1 / 2 then f + 1
  else if x - f < 1 / 2 then f
  else if f % 2 = 0 then f else f + 1

/-- Renders a nonnegative rational with one decimal place. -/
def fmt1 (q : ℚ) : String :=
  let n := round1 q
  toString (n / 10) ++ "." ++ toString (n % 10)

/-- Embedding of `MasterAnalysisAgent._determine_recall_result`: fails
when turnout is below 25 (percent), then when agreement is at most 50,
and passes otherwise, with the explanatory reason string. -/
def determineRecallResult (turnout agreement : ℚ) : Bool × String :=
  if turnout < 25 then
    (false, "投票率" ++ fmt1 turnout ++ "%未達25%門檻")
  else if agreement ≤ 50 then
    (false, "同意率" ++ fmt1 agreement ++ "%未過半")
  else
    (true, "投票率" ++ fmt1 turnout ++ "%達標且同意率" ++ fmt1 agreement ++ "%過半")

/-- The scenario snapshot consumed by `MasterAnalysisAgent.predict`
(a Python dict; modelled with every consulted key present, the optional
keys carrying the caller's values). -/
structure ScenarioInput where
  age_structure : List (String × ℚ)
  recall_target : String
  forum_sentiment : ForumSent
  discussion_heat : ℚ
  peer_pressure : ℚ
  temperature : ℚ
  rainfall : ℚ
  weather_condition : String
  region : String
  historical_turnout : ℚ
  mobilization_capacity : ℚ
  dcard_sentiment : ℚ
  ptt_sentiment : ℚ
  mobilization_strength : ℚ

/-- The structured result of `MasterAnalysisAgent.predict`, with the
per-component breakdown of `agent_results`. -/
structure PredictionResult where
  predicted_turnout : ℚ
  predicted_agreement : ℚ
  will_pass : Bool
  reason : String
  psychological : List (String × PsychResult)
  media : List (String × MediaResult)
  social : List (String × SocialResult)
  climate : ClimateResult
  regional : RegionalResult
  sentiment : SentimentResult
  deriving DecidableEq

/-- Embedding of `MasterAnalysisAgent.predict`: runs the six agents on
the scenario in source order (the sentiment agent consuming the random
stream), combines them into turnout and agreement, and applies the
threshold verdict.  A `KeyError` from the psychological or media agent
(unknown age-group key) aborts the whole prediction, modelled as `none`. -/
def predict (s : ScenarioInput) (st : RState) : Option PredictionResult :=
  match psychologicalAnalyze s.age_structure s.recall_target with
  | none => none
  | some psychological =>
    match mediaAnalyze s.age_structure s.recall_target with
    | none => none
    | some media =>
      let social := socialAnalyze s.forum_sentiment s.discussion_heat
        s.peer_pressure
      let climate := climateAnalyze s.temperature s.rainfall
        s.weather_condition
      let regional := regionalAnalyze s.region s.historical_turnout
        s.mobilization_capacity
      let sentiment := (sentimentAnalyze s.dcard_sentiment s.ptt_sentiment
        s.mobilization_strength st).1
      let turnout := calcTurnout s.age_structure psychological media social
        climate regional (some s.recall_target)
      let agreement := calcAgreement turnout sentiment (some s.recall_target)
      let verdict := determineRecallResult turnout agreement
      some { predicted_turnout := turnout
             predicted_agreement := agreement
             will_pass := verdict.1
             reason := verdict.2
             psychological := psychological
             media := media
             social := social
             climate := climate
             regional := regional
             sentiment := sentiment }

/-! ### Helper lemmas -/

lemma clamp_lower (x : ℚ) : (0.5 : ℚ) ≤ max 0.5 (min x 1.5) :=
  le_max_left _ _

lemma clamp_upper (x : ℚ) : max 0.5 (min x 1.5) ≤ 1.5 :=
  max_le (by norm_num) (min_le_right _ _)

lemma optEqSomeGetD {α : Type _} (o : Option α) (d : α) (h : o.isSome = true) :
    o = some (o.getD d) := by
  cases o with
  | none => simp at h
  | some v => rfl

lemma optMapList_mem {α : Type _} {f : String × ℚ → Option (String × α)} :
    ∀ {l : List (String × ℚ)} {res : List (String × α)},
      optMapList f l = some res → ∀ {b : String × α}, b ∈ res →
        ∃ a ∈ l, f a = some b := by
  intro l
  induction l with
  | nil =>
    intro res h b hb
    simp only [optMapList, Option.some.injEq] at h
    subst h
    simp at hb
  | cons a t ih =>
    intro res h b hb
    simp only [optMapList] at h
    cases hfa : f a with
    | none => rw [hfa] at h; exact absurd h (by simp)
    | some b0 =>
      cases hot : optMapList f t with
      | none => rw [hfa, hot] at h; exact absurd h (by simp)
      | some bs =>
        rw [hfa, hot] at h
        simp only [Option.some.injEq] at h
        subst h
        rcases List.mem_cons.mp hb with hb | hb
        · exact ⟨a, List.mem_cons_self a t, hb ▸ hfa⟩
        · obtain ⟨a2, ha2, hfa2⟩ := ih hot hb
          exact ⟨a2, List.mem_cons_of_mem _ ha2, hfa2⟩

lemma optMapList_isSome {α : Type _} {f : String × ℚ → Option (String × α)} :
    ∀ {l : List (String × ℚ)}, (∀ a ∈ l, (f a).isSome = true) →
      (optMapList f l).isSome = true := by
  intro l
  induction l with
  | nil => intro _; rfl
  | cons a t ih =>
    intro h
    obtain ⟨b, hb⟩ := Option.isSome_iff_exists.mp (h a (List.mem_cons_self a t))
    obtain ⟨bs, hbs⟩ := Option.isSome_iff_exists.mp
      (ih fun x hx => h x (List.mem_cons_of_mem _ hx))
    simp [optMapList, hb, hbs]

/-- The structural unfolding of `predict` once the psychological and
media agents are known to succeed. -/
lemma predict_eq_some (s : ScenarioInput) (st : RState)
    {psych : List (String × PsychResult)} {media : List (String × MediaResult)}
    (hp : psychologicalAnalyze s.age_structure s.recall_target = some psych)
    (hm : mediaAnalyze s.age_structure s.recall_target = some media) :
    predict s st = some
      { predicted_turnout := calcTurnout s.age_structure psych media
          (socialAnalyze s.forum_sentiment s.discussion_heat s.peer_pressure)
          (climateAnalyze s.temperature s.rainfall s.weather_condition)
          (regionalAnalyze s.region s.historical_turnout s.mobilization_capacity)
          (some s.recall_target)
        predicted_agreement := calcAgreement
          (calcTurnout s.age_structure psych media
            (socialAnalyze s.forum_sentiment s.discussion_heat s.peer_pressure)
            (climateAnalyze s.temperature s.rainfall s.weather_condition)
            (regionalAnalyze s.region s.historical_turnout s.mobilization_capacity)
            (some s.recall_target))
          (sentimentAnalyze s.dcard_sentiment s.ptt_sentiment s.mobilization_strength st).1
          (some s.recall_target)
        will_pass := (determineRecallResult
          (calcTurnout s.age_structure psych media
            (socialAnalyze s.forum_sentiment s.discussion_heat s.peer_pressure)
            (climateAnalyze s.temperature s.rainfall s.weather_condition)
            (regionalAnalyze s.region s.historical_turnout s.mobilization_capacity)
            (some s.recall_target))
          (calcAgreement
            (calcTurnout s.age_structure psych media
              (socialAnalyze s.forum_sentiment s.discussion_heat s.peer_pressure)
              (climateAnalyze s.temperature s.rainfall s.weather_condition)
              (regionalAnalyze s.region s.historical_turnout s.mobilization_capacity)
              (some s.recall_target))
            (sentimentAnalyze s.dcard_sentiment s.ptt_sentiment s.mobilization_strength st).1
            (some s.recall_target))).1
        reason := (determineRecallResult
          (calcTurnout s.age_structure psych media
            (socialAnalyze s.forum_sentiment s.discussion_heat s.peer_pressure)
            (climateAnalyze s.temperature s.rainfall s.weather_condition)
            (regionalAnalyze s.region s.historical_turnout s.mobilization_capacity)
            (some s.recall_target))
          (calcAgreement
            (calcTurnout s.age_structure psych media
              (socialAnalyze s.forum_sentiment s.discussion_heat s.peer_pressure)
              (climateAnalyze s.temperature s.rainfall s.weather_condition)
              (regionalAnalyze s.region s.historical_turnout s.mobilization_capacity)
              (some s.recall_target))
            (sentimentAnalyze s.dcard_sentiment s.ptt_sentiment s.mobilization_strength st).1
            (some s.recall_target))).2
        psychological := psych
        media := media
        social := socialAnalyze s.forum_sentiment s.discussion_heat s.peer_pressure
        climate := climateAnalyze s.temperature s.rainfall s.weather_condition
        regional := regionalAnalyze s.region s.historical_turnout s.mobilization_capacity
        sentiment := (sentimentAnalyze s.dcard_sentiment s.ptt_sentiment
          s.mobilization_strength st).1 } := by
  simp only [predict, hp, hm]

/-! ### Concrete scenarios and evaluated agent outputs -/

/-- The all-zeros random stream. -/
def rstZero : RState := ⟨fun _ => 0, 0⟩

/-- The all-halves random stream. -/
def rstHalf : RState := ⟨fun _ => 1/2, 0⟩

/-- A valid scenario: canonical 30/45/25 age shares, a known
maximum-intensity target, favorable weather, maximal sentiment. -/
def scn1 : ScenarioInput :=
  { age_structure := [("青年層", 30), ("中年層", 45), ("長者層", 25)]
    recall_target := "韓國瑜 (2020年罷免成功)"
    forum_sentiment := ⟨100, 100⟩
    discussion_heat := 90
    peer_pressure := 80
    temperature := 25
    rainfall := 0
    weather_condition := "晴天"
    region := "台南"
    historical_turnout := 70
    mobilization_capacity := 100
    dcard_sentiment := 20
    ptt_sentiment := 30
    mobilization_strength := 80 }

/-- A valid scenario concentrating the whole population in the youth
age group, with an unknown (intensity 1.0) target. -/
def scn5 : ScenarioInput :=
  { scn1 with
    age_structure := [("青年層", 100), ("中年層", 0), ("長者層", 0)]
    recall_target := "一般立委" }

/-- The psychological-agent output on `scn1` (boosted interest). -/
def psych1 : List (String × PsychResult) :=
  [("青年層", ⟨30, 18/25, 7/10, 4/5, 252/625⟩),
   ("中年層", ⟨45, 24/25, 3/5, 9/10, 324/625⟩),
   ("長者層", ⟨25, 27/25, 1/2, 7/10, 189/500⟩)]

/-- The media-agent output on `scn1` (high-profile attention 1.5). -/
def media1 : List (String × MediaResult) :=
  [("青年層", ⟨1013/1000, ["IG", "TikTok"]⟩),
   ("中年層", ⟨389/400, ["Facebook", "LINE"]⟩),
   ("長者層", ⟨941/1000, ["TV", "Newspaper"]⟩)]

lemma hp1 : psychologicalAnalyze scn1.age_structure scn1.recall_target =
    some psych1 := by
  with_unfolding_all rfl

lemma hm1 : mediaAnalyze scn1.age_structure scn1.recall_target =
    some media1 := by
  with_unfolding_all rfl

/-- The psychological-agent output on `scn5` (no boost). -/
def psych5 : List (String × PsychResult) :=
  [("青年層", ⟨100, 3/5, 7/10, 4/5, 42/125⟩),
   ("中年層", ⟨0, 4/5, 3/5, 9/10, 54/125⟩),
   ("長者層", ⟨0, 9/10, 1/2, 7/10, 63/200⟩)]

/-- The media-agent output on `scn5` (baseline attention 1.0). -/
def media5 : List (String × MediaResult) :=
  [("青年層", ⟨421/500, ["IG", "TikTok"]⟩),
   ("中年層", ⟨163/200, ["Facebook", "LINE"]⟩),
   ("長者層", ⟨397/500, ["TV", "Newspaper"]⟩)]

lemma hp5 : psychologicalAnalyze scn5.age_structure scn5.recall_target =
    some psych5 := by
  with_unfolding_all rfl

lemma hm5 : mediaAnalyze scn5.age_structure scn5.recall_target =
    some media5 := by
  with_unfolding_all rfl

/-- Projection of the three age-stratified sentiment values out of a
prediction result. -/
def sentimentTriple (r : PredictionResult) : ℚ × ℚ × ℚ :=
  (r.sentiment.s1_youth_forum, r.sentiment.s2_middle_forum,
    r.sentiment.s3_elder_news)

/-- A placeholder prediction used only as the irrelevant `getD` default. -/
def emptyPrediction : PredictionResult :=
  { predicted_turnout := 0
    predicted_agreement := 0
    will_pass := false
    reason := ""
    psychological := []
    media := []
    social := []
    climate := ⟨1, 0, 0, ""⟩
    regional := ⟨1, 1, 0, 0, 1⟩
    sentiment := (sentimentAnalyze 0 0 0 rstZero).1 }

/-! ### Claim C2 -/

/-- C2: the code evaluated at the extreme-weather scenario (38 °C, 20 mm
rainfall, typhoon) yields a weather coefficient of 0.70, not the floor
0.5 the claim requires: in the source the `elif temperature > 35` and
`elif rainfall > 15` arms are shadowed by the weaker `> 30` / `> 5`
tests before them, so only −0.05, −0.10 and −0.15 are subtracted. -/
theorem C2_weather_floor_code_eval :
    (climateAnalyze 38 20 "颱風").weather_coefficient = 7/10 ∧
      (7/10 : ℚ) ≠ 1/2 := by
  constructor
  · with_unfolding_all rfl
  · norm_num

/-! ### Claim C3 -/

/-- C3: the verdict passes exactly when turnout is at least 25 percent
and agreement is strictly above 50 percent; in particular the boundary
point turnout = 25, agreement = 50 fails. -/
theorem C3_verdict_rule :
    (∀ turnout agreement : ℚ,
      (determineRecallResult turnout agreement).1 = true ↔
        25 ≤ turnout ∧ 50 < agreement) ∧
    (determineRecallResult 25 50).1 = false := by
  constructor
  · intro t a
    simp only [determineRecallResult]
    split_ifs with h1 h2
    · simp only [Bool.false_eq_true, false_iff, not_and]
      intro ht
      linarith
    · simp only [Bool.false_eq_true, false_iff, not_and]
      intro ht
      linarith
    · simp only [true_iff]
      exact ⟨by linarith, by linarith⟩
  · with_unfolding_all rfl

/-- Witness for C3: a point where both conditions hold and the verdict
is a pass. -/
theorem C3_verdict_rule_witness :
    (determineRecallResult 30 60).1 = true :=
  (C3_verdict_rule.1 30 60).mpr ⟨by norm_num, by norm_num⟩

/-! ### Claim C10 -/

/-- C10: the aggregator's agreement computation does not depend on the
turnout value passed to it: any two turnout arguments give identical
predicted agreement for the same sentiment breakdown and target. -/
theorem C10_agreement_ignores_turnout :
    ∀ (t₁ t₂ : ℚ) (sentiment : SentimentResult) (target? : Option String),
      calcAgreement t₁ sentiment target? = calcAgreement t₂ sentiment target? := by
  intro t₁ t₂ sentiment target?
  rfl

/-! ### Claim C1 -/

/-- C1 counterexample: on the valid scenario `scn1` the aggregator
returns a predicted turnout of about 123.3 percent, violating the
claimed upper bound of 1.0 (100 on the percent scale); the source
deliberately removed the cap and only floors the value at 20. -/
theorem C1_turnout_exceeds_one_cex :
    Option.map PredictionResult.predicted_turnout (predict scn1 rstZero) =
      some (24661571121/200000000) ∧
      (100 : ℚ) < 24661571121/200000000 := by
  constructor
  · rw [predict_eq_some scn1 rstZero hp1 hm1]
    with_unfolding_all rfl
  · norm_num

/-- C1 amended: for every scenario and random stream on which `predict`
returns a result, the predicted turnout is at least 20 percent (with no
upper bound) and the predicted agreement lies between 10 and 90
percent. -/
theorem C1_amended_output_bounds (s : ScenarioInput) (st : RState)
    (r : PredictionResult) (h : predict s st = some r) :
    20 ≤ r.predicted_turnout ∧
      10 ≤ r.predicted_agreement ∧ r.predicted_agreement ≤ 90 := by
  cases hp : psychologicalAnalyze s.age_structure s.recall_target with
  | none => simp [predict, hp] at h
  | some psych =>
    cases hm : mediaAnalyze s.age_structure s.recall_target with
    | none => simp [predict, hp, hm] at h
    | some media =>
      rw [predict_eq_some s st hp hm] at h
      simp only [Option.some.injEq] at h
      subst h
      refine ⟨?_, ?_, ?_⟩
      · simp only [calcTurnout]
        exact le_max_right _ _
      · simp only [calcAgreement]
        exact le_min (le_max_right _ _) (by norm_num)
      · simp only [calcAgreement]
        exact min_le_right _ _

/-- Witness for C1 amended, at the concrete scenario `scn1`. -/
theorem C1_amended_output_bounds_witness :
    20 ≤ ((predict scn1 rstZero).getD emptyPrediction).predicted_turnout ∧
      10 ≤ ((predict scn1 rstZero).getD emptyPrediction).predicted_agreement ∧
      ((predict scn1 rstZero).getD emptyPrediction).predicted_agreement ≤ 90 :=
  C1_amended_output_bounds scn1 rstZero _
    (optEqSomeGetD _ _ (by rw [predict_eq_some scn1 rstZero hp1 hm1]; rfl))

/-! ### Claim C4 -/

/-- C4 counterexample: an age-structure map containing the unknown age
group 幼兒層 makes both the motivation and the media estimator raise a
`KeyError` (modelled as `none`) instead of returning a result with a
zero coefficient for the unknown group. -/
theorem C4_unknown_age_group_cex :
    psychologicalAnalyze [("幼兒層", 10)] "一般立委" = none ∧
      mediaAnalyze [("幼兒層", 10)] "一般立委" = none := by
  constructor
  · with_unfolding_all rfl
  · with_unfolding_all rfl

/-- C4 amended: the motivation and media estimators are total exactly on
age structures whose every key is one of the three known age groups; an
unknown key raises (returns `none`) rather than defaulting to 0. -/
theorem C4_amended_known_groups_total (age_structure : List (String × ℚ))
    (recall_target : String)
    (h : ∀ gp ∈ age_structure,
      gp.1 = "青年層" ∨ gp.1 = "中年層" ∨ gp.1 = "長者層") :
    (psychologicalAnalyze age_structure recall_target).isSome = true ∧
      (mediaAnalyze age_structure recall_target).isSome = true := by
  constructor
  · refine optMapList_isSome fun a ha => ?_
    rcases h a ha with hg | hg | hg <;>
      · rw [hg]
        with_unfolding_all rfl
  · refine optMapList_isSome fun a ha => ?_
    rcases h a ha with hg | hg | hg <;>
      · rw [hg]
        with_unfolding_all rfl

/-- Witness for C4 amended, at a concrete known-groups age structure. -/
theorem C4_amended_known_groups_total_witness :
    (psychologicalAnalyze [("青年層", 30), ("長者層", 70)] "某人").isSome = true ∧
      (mediaAnalyze [("青年層", 30), ("長者層", 70)] "某人").isSome = true :=
  C4_amended_known_groups_total [("青年層", 30), ("長者層", 70)] "某人"
    (by intro gp hgp; fin_cases hgp <;> simp)

/-! ### Claim C5 -/

/-- The agreement formula exactly as the specification words it, with
the age-group population shares as free parameters. -/
def agreementSpecFormula (shareYouth shareMiddle shareElder
    s1 s2 s3 intensity : ℚ) : ℚ :=
  min (max ((shareYouth * (s1 * 1.2) + shareMiddle * (s2 * 1.0) +
    shareElder * (s3 * 0.8)) * intensity * 100) 10) 90

/-- C5 counterexample: on the valid scenario `scn5`, whose age structure
puts the whole population in the youth group, the aggregator returns
31.5725 percent agreement, whereas the claimed formula applied with the
scenario's age shares (1, 0, 0) and the run's own sentiment values gives
34.7: the code uses the fixed shares 0.30/0.45/0.25, not the
scenario's. -/
theorem C5_agreement_scenario_shares_cex :
    Option.map PredictionResult.predicted_agreement (predict scn5 rstZero) =
      some (12629/400) ∧
    Option.map sentimentTriple (predict scn5 rstZero) =
      some (347/1200, 117/400, 2/5) ∧
    scn5.age_structure = [("青年層", 100), ("中年層", 0), ("長者層", 0)] ∧
    dynamicPoliticalIntensity (some scn5.recall_target) = 1 ∧
    agreementSpecFormula 1 0 0 (347/1200) (117/400) (2/5) 1 = 347/10 ∧
    (12629/400 : ℚ) ≠ 347/10 := by
  refine ⟨?_, ?_, ?_, ?_, ?_, ?_⟩
  · rw [predict_eq_some scn5 rstZero hp5 hm5]
    with_unfolding_all rfl
  · rw [predict_eq_some scn5 rstZero hp5 hm5]
    with_unfolding_all rfl
  · rfl
  · with_unfolding_all rfl
  · with_unfolding_all rfl
  · norm_num

/-- C5 amended: the predicted agreement is the spec's clamp formula but
with the fixed population shares 0.30 / 0.45 / 0.25 in place of the
scenario's age shares, applied to the sentiment breakdown's three
age-stratified values and the target's political intensity. -/
theorem C5_amended_agreement_formula :
    ∀ (turnout_rate : ℚ) (sentiment : SentimentResult) (target? : Option String),
      calcAgreement turnout_rate sentiment target? =
        agreementSpecFormula 0.30 0.45 0.25 sentiment.s1_youth_forum
          sentiment.s2_middle_forum sentiment.s3_elder_news
          (dynamicPoliticalIntensity target?) := by
  intro turnout_rate sentiment target?
  rfl

/-! ### Claim C8 -/

/-- The components of a prediction that do not depend on the random
stream. -/
def deterministicPart (r : PredictionResult) :
    ℚ × List (String × PsychResult) × List (String × MediaResult) ×
      List (String × SocialResult) × ClimateResult × RegionalResult :=
  (r.predicted_turnout, r.psychological, r.media, r.social, r.climate,
    r.regional)

/-- C8 counterexample: the same valid scenario run against two different
random streams yields different predicted agreement (56.8305 versus
88.7175 percent), so `predict` is not a deterministic function of the
`ScenarioInput` alone: `ForumSentimentAgent` draws fresh randomness. -/
theorem C8_random_stream_cex :
    Option.map PredictionResult.predicted_agreement (predict scn1 rstZero) =
      some (113661/2000) ∧
    Option.map PredictionResult.predicted_agreement (predict scn1 rstHalf) =
      some (35487/400) ∧
    (113661/2000 : ℚ) ≠ 35487/400 := by
  refine ⟨?_, ?_, ?_⟩
  · rw [predict_eq_some scn1 rstZero hp1 hm1]
    with_unfolding_all rfl
  · rw [predict_eq_some scn1 rstHalf hp1 hm1]
    with_unfolding_all rfl
  · norm_num

/-- C8 amended: two calls of `predict` with an identical `ScenarioInput`
agree on the predicted turnout and on the psychological, media, social,
climate and regional breakdowns, whatever the two random streams; only
the sentiment breakdown, the predicted agreement and the verdict derived
from it can differ between calls. -/
theorem C8_amended_deterministic_components :
    ∀ (s : ScenarioInput) (st₁ st₂ : RState),
      Option.map deterministicPart (predict s st₁) =
        Option.map deterministicPart (predict s st₂) := by
  intro s st₁ st₂
  cases hp : psychologicalAnalyze s.age_structure s.recall_target with
  | none => simp [predict, hp]
  | some psych =>
    cases hm : mediaAnalyze s.age_structure s.recall_target with
    | none => simp [predict, hp, hm]
    | some media =>
      rw [predict_eq_some s st₁ hp hm, predict_eq_some s st₂ hp hm]
      simp only [Option.map_some, Option.map_some', deterministicPart]

/-! ### Claim C6 -/

/-- C6: the media and social (climate) per-age-group coefficients lie in
[0.5, 1.5], the regional adjustment lies in [0.95, 1.1], and the weather
coefficient lies in [0.5, 1.0], for every input. -/
theorem C6_coefficient_ranges :
    (∀ (age_structure : List (String × ℚ)) (recall_target : String)
        (res : List (String × MediaResult)) (g : String) (m : MediaResult),
      mediaAnalyze age_structure recall_target = some res → (g, m) ∈ res →
        0.5 ≤ m.media_coefficient ∧ m.media_coefficient ≤ 1.5) ∧
    (∀ (fs : ForumSent) (discussion_heat peer_pressure : ℚ)
        (g : String) (r : SocialResult),
      (g, r) ∈ socialAnalyze fs discussion_heat peer_pressure →
        0.5 ≤ r.social_coefficient ∧ r.social_coefficient ≤ 1.5) ∧
    (∀ (region : String) (historical_turnout mobilization_capacity : ℚ),
      0.95 ≤ (regionalAnalyze region historical_turnout
          mobilization_capacity).adjustment_factor ∧
        (regionalAnalyze region historical_turnout
          mobilization_capacity).adjustment_factor ≤ 1.1) ∧
    (∀ (temperature rainfall : ℚ) (weather_condition : String),
      0.5 ≤ (climateAnalyze temperature rainfall
          weather_condition).weather_coefficient ∧
        (climateAnalyze temperature rainfall
          weather_condition).weather_coefficient ≤ 1.0) := by
  refine ⟨?_, ?_, ?_, ?_⟩
  · intro age_structure recall_target res g m hres hmem
    simp only [mediaAnalyze] at hres
    obtain ⟨a, _, hfa⟩ := optMapList_mem hres hmem
    rcases Option.map_eq_some'.mp hfa with ⟨ws, _, heq⟩
    simp only [Prod.mk.injEq] at heq
    obtain ⟨_, hm2⟩ := heq
    subst hm2
    exact ⟨clamp_lower _, clamp_upper _⟩
  · intro fs discussion_heat peer_pressure g r hmem
    simp only [socialAnalyze, List.mem_cons, List.not_mem_nil, or_false,
      Prod.mk.injEq] at hmem
    rcases hmem with ⟨_, hr⟩ | ⟨_, hr⟩ | ⟨_, hr⟩ <;>
      · subst hr
        exact ⟨clamp_lower _, clamp_upper _⟩
  · intro region historical_turnout mobilization_capacity
    simp only [regionalAnalyze]
    exact ⟨le_max_right _ _, max_le (min_le_right _ _) (by norm_num)⟩
  · intro temperature rainfall weather_condition
    simp only [climateAnalyze]
    refine ⟨le_max_right _ _, max_le ?_ (by norm_num)⟩
    split_ifs <;> norm_num

/-- Witness for C6, applying each conjunct at a concrete input. -/
theorem C6_coefficient_ranges_witness :
    (0.5 ≤ (MediaResult.mk (421/500) ["IG", "TikTok"]).media_coefficient ∧
      (MediaResult.mk (421/500) ["IG", "TikTok"]).media_coefficient ≤ 1.5) ∧
    (0.5 ≤ (socialRow ⟨50, 50⟩ 70 60 0.3).social_coefficient ∧
      (socialRow ⟨50, 50⟩ 70 60 0.3).social_coefficient ≤ 1.5) ∧
    (0.95 ≤ (regionalAnalyze "台北" 70 80).adjustment_factor ∧
      (regionalAnalyze "台北" 70 80).adjustment_factor ≤ 1.1) ∧
    (0.5 ≤ (climateAnalyze 38 20 "颱風").weather_coefficient ∧
      (climateAnalyze 38 20 "颱風").weather_coefficient ≤ 1.0) :=
  ⟨C6_coefficient_ranges.1 [("青年層", 30)] "某人"
      [("青年層", MediaResult.mk (421/500) ["IG", "TikTok"])] "青年層"
      (MediaResult.mk (421/500) ["IG", "TikTok"])
      (by with_unfolding_all rfl) (List.mem_singleton.mpr rfl),
    C6_coefficient_ranges.2.1 ⟨50, 50⟩ 70 60 "青年層" (socialRow ⟨50, 50⟩ 70 60 0.3)
      (List.mem_cons_self _ _),
    C6_coefficient_ranges.2.2.1 "台北" 70 80,
    C6_coefficient_ranges.2.2.2 38 20 "颱風"⟩

/-! ### Claim C7 -/

lemma heatMultiplier_mono {h₁ h₂ : ℚ} (hh : h₁ ≤ h₂) :
    heatMultiplier h₁ ≤ heatMultiplier h₂ := by
  simp only [heatMultiplier]
  exact min_le_min (by linarith) le_rfl

lemma socialRow_coefficient_mono (fs : ForumSent) {h₁ h₂ : ℚ}
    (peer_pressure sensitivity : ℚ)
    (hd : 0 ≤ fs.dcard_positive) (hp : 0 ≤ fs.ptt_positive)
    (hpp : 0 ≤ peer_pressure) (hsens : 0 ≤ sensitivity) (hh : h₁ ≤ h₂) :
    (socialRow fs h₁ peer_pressure sensitivity).social_coefficient ≤
      (socialRow fs h₂ peer_pressure sensitivity).social_coefficient := by
  have hs : 0 ≤ sentimentScore fs := by
    simp only [sentimentScore]
    have h1 : 0 ≤ fs.dcard_positive / 100 := by positivity
    have h2 : 0 ≤ fs.ptt_positive / 100 := by positivity
    linarith
  have hpf : 0 ≤ pressureFactor peer_pressure := by
    simp only [pressureFactor]
    refine le_min (by linarith) (by norm_num)
  have hm := heatMultiplier_mono hh
  simp only [socialRow]
  refine max_le_max le_rfl (min_le_min ?_ le_rfl)
  refine add_le_add_left ?_ _
  have step1 : sentimentScore fs * heatMultiplier h₁ ≤
      sentimentScore fs * heatMultiplier h₂ :=
    mul_le_mul_of_nonneg_left hm hs
  have step2 := mul_le_mul_of_nonneg_right step1 hpf
  exact mul_le_mul_of_nonneg_right step2 hsens

/-- C7: with the forum positives and peer pressure in their valid ranges
(nonnegative), increasing `discussion_heat` never decreases the social
(climate) coefficient of any age group. -/
theorem C7_climate_heat_mono (fs : ForumSent) (h₁ h₂ peer_pressure : ℚ)
    (g : String) (r₁ r₂ : SocialResult)
    (hd : 0 ≤ fs.dcard_positive) (hp : 0 ≤ fs.ptt_positive)
    (hpp : 0 ≤ peer_pressure) (hh : h₁ ≤ h₂)
    (e₁ : (socialAnalyze fs h₁ peer_pressure).lookup g = some r₁)
    (e₂ : (socialAnalyze fs h₂ peer_pressure).lookup g = some r₂) :
    r₁.social_coefficient ≤ r₂.social_coefficient := by
  simp only [socialAnalyze, List.lookup] at e₁ e₂
  cases hg1 : (g == "青年層") with
  | true =>
    rw [hg1] at e₁ e₂
    simp only [Option.some.injEq] at e₁ e₂
    subst e₁; subst e₂
    exact socialRow_coefficient_mono fs peer_pressure 0.3 hd hp hpp
      (by norm_num) hh
  | false =>
    rw [hg1] at e₁ e₂
    cases hg2 : (g == "中年層") with
    | true =>
      rw [hg2] at e₁ e₂
      simp only [Option.some.injEq] at e₁ e₂
      subst e₁; subst e₂
      exact socialRow_coefficient_mono fs peer_pressure 0.25 hd hp hpp
        (by norm_num) hh
    | false =>
      rw [hg2] at e₁ e₂
      cases hg3 : (g == "長者層") with
      | true =>
        rw [hg3] at e₁ e₂
        simp only [Option.some.injEq] at e₁ e₂
        subst e₁; subst e₂
        exact socialRow_coefficient_mono fs peer_pressure 0.2 hd hp hpp
          (by norm_num) hh
      | false =>
        rw [hg3] at e₁ e₂
        simp at e₁

/-- Witness for C7 at a concrete pair of heat values 30 ≤ 60. -/
theorem C7_climate_heat_mono_witness :
    (socialRow ⟨50, 50⟩ 30 60 0.3).social_coefficient ≤
      (socialRow ⟨50, 50⟩ 60 60 0.3).social_coefficient :=
  C7_climate_heat_mono ⟨50, 50⟩ 30 60 60 "青年層"
    (socialRow ⟨50, 50⟩ 30 60 0.3) (socialRow ⟨50, 50⟩ 60 60 0.3)
    (by norm_num) (by norm_num) (by norm_num) (by norm_num)
    (by with_unfolding_all rfl) (by with_unfolding_all rfl)

/-! ### Claim C9 -/

/-- C9: an age group present in the age structure but missing from the
psychological, media or social coefficient map is silently skipped by the
turnout computation: its term contributes nothing and no error occurs. -/
theorem C9_skip_missing_age_group (g : String) (p : ℚ)
    (rest : List (String × ℚ)) (psychological : List (String × PsychResult))
    (media : List (String × MediaResult)) (social : List (String × SocialResult))
    (climate : ClimateResult) (regional : RegionalResult)
    (target? : Option String)
    (h : psychological.lookup g = none ∨ media.lookup g = none ∨
      social.lookup g = none) :
    calcTurnout ((g, p) :: rest) psychological media social climate regional
        target? =
      calcTurnout rest psychological media social climate regional target? := by
  simp only [calcTurnout, List.foldl]
  rcases h with h | h | h
  · rw [h]
  · cases hps : psychological.lookup g with
    | none => rfl
    | some pr => rw [h]
  · cases hps : psychological.lookup g with
    | none => rfl
    | some pr =>
      cases hme : media.lookup g with
      | none => rfl
      | some mr => rw [h]

/-- Witness for C9: a singleton age structure whose only group is absent
from all three (empty) coefficient maps leaves the turnout unchanged. -/
theorem C9_skip_missing_age_group_witness :
    calcTurnout [("青年層", 100)] [] [] [] (climateAnalyze 25 0 "晴天")
        (regionalAnalyze "" 55 70) none =
      calcTurnout [] [] [] [] (climateAnalyze 25 0 "晴天")
        (regionalAnalyze "" 55 70) none :=
  C9_skip_missing_age_group "青年層" 100 [] [] [] []
    (climateAnalyze 25 0 "晴天") (regionalAnalyze "" 55 70) none
    (Or.inl rfl)

end TWRecall
